import Mathlib

/-!
Verification of the Pyra coverage-corpus / validation-harness design.

The repository ships only sample Python scripts under `test-project/`;
the harness itself (Fixture, Expectation Set, Corpus Registry, Validation
Engine, Diff Report) is specified but not implemented there.  The
definitions below therefore embed that design from the specification,
while `calculate` and the `while True` loop at the end of the file embed
the concrete sample scripts `debug_test.py` and `main.py`.
-/

/-! ## Data model -/

/-- Modelled from the spec: a named source location used for
debugger-style expectations (name, line, optional column); the harness
code is absent from the repository. -/
structure Checkpoint where
  name : String
  line : Nat
  column : Option Nat
  deriving DecidableEq, Repr

/-- Modelled from the spec: an immutable unit of sample source plus
metadata; the harness code is absent from the repository. -/
structure Fixture where
  id : String
  source : String
  tags : List String
  checkpoints : List Checkpoint
  deriving DecidableEq, Repr

/-- Modelled from the spec: the ground-truth classification for a
fixture.  `token_spans` and `diagnostics` are optional so that an absent
field makes the engine skip the corresponding adapter operation;
`checkpoint_state` maps checkpoint names to expected
variable-name-to-value-representation bindings. -/
structure ExpectationSet where
  token_spans : Option (List (Nat × Nat × String))
  diagnostics : Option (List (String × String × String))
  checkpoint_state : List (String × List (String × String))
  deriving DecidableEq, Repr

/-- Modelled from the spec: registry-construction faults and the frozen
marker; the harness code is absent from the repository. -/
inductive RegistryError where
  | DuplicateIdError
  | InvalidCheckpointError
  | RegistryFrozenError
  | NotFoundError
  deriving DecidableEq, Repr

/-- Modelled from the spec: an ordered collection of (Fixture,
Expectation Set) pairs keyed by `id`, with a mutable-until-frozen flag;
the harness code is absent from the repository. -/
structure CorpusRegistry where
  entriesList : List (Fixture × ExpectationSet)
  frozen : Bool
  deriving DecidableEq, Repr

def emptyRegistry : CorpusRegistry :=
  { entriesList := [], frozen := false }

/-- Modelled from the spec: `register(fixture, expectations)` fails with
`RegistryFrozenError` once frozen, `DuplicateIdError` if the id is
already present, `InvalidCheckpointError` if an expectation references a
checkpoint name absent from the fixture; otherwise it appends the pair. -/
def CorpusRegistry.register (r : CorpusRegistry) (f : Fixture)
    (e : ExpectationSet) : Except RegistryError CorpusRegistry :=
  if r.frozen then
    .error .RegistryFrozenError
  else if r.entriesList.any (fun p => p.1.id == f.id) then
    .error .DuplicateIdError
  else if e.checkpoint_state.any
      (fun cs => !(f.checkpoints.any (fun c => c.name == cs.1))) then
    .error .InvalidCheckpointError
  else
    .ok { r with entriesList := r.entriesList ++ [(f, e)] }

/-- Modelled from the spec: `freeze()` transitions the registry from
mutable to read-only. -/
def CorpusRegistry.freeze (r : CorpusRegistry) : CorpusRegistry :=
  { r with frozen := true }

/-- Modelled from the spec: `entries()` yields the (Fixture, Expectation
Set) pairs in insertion order. -/
def CorpusRegistry.entries (r : CorpusRegistry) :
    List (Fixture × ExpectationSet) :=
  r.entriesList

/-- The registry state after a `register` call, keeping the old state
when the call failed (a failed call leaves the registry untouched). -/
def CorpusRegistry.attemptRegister (r : CorpusRegistry) (f : Fixture)
    (e : ExpectationSet) : CorpusRegistry :=
  match r.register f e with
  | .ok r' => r'
  | .error _ => r

/-- A sequence of `register` calls, stopping at the first failure. -/
def CorpusRegistry.registerAll (r : CorpusRegistry) :
    List (Fixture × ExpectationSet) → Except RegistryError CorpusRegistry
  | [] => .ok r
  | (f, e) :: rest =>
    match r.register f e with
    | .error err => .error err
    | .ok r' => r'.registerAll rest

/-! ## Analyzer Adapter interface -/

/-- Modelled from the spec: execution-time adapter faults, carrying the
fault message (`CheckpointUnreachableError` when a checkpoint is never
hit, plus arbitrary other adapter faults); the adapter implementations
are external collaborators absent from the repository. -/
inductive AdapterFault where
  | CheckpointUnreachableError (msg : String)
  | OtherFault (msg : String)
  deriving DecidableEq, Repr

def AdapterFault.message : AdapterFault → String
  | .CheckpointUnreachableError m => m
  | .OtherFault m => m

/-- Modelled from the spec: the capability interface the harness
invokes — `tokenize`, `lint`, `run_to_checkpoint` — each of which may
raise a fault.  `run_to_checkpoint` receives the fixture source and the
checkpoint name and reports variable bindings. -/
structure AnalyzerAdapter where
  tokenize : String → Except AdapterFault (List (Nat × Nat × String))
  lint : String → Except AdapterFault (List (String × String × String))
  run_to_checkpoint :
    String → String → Except AdapterFault (List (String × String))

/-! ## Diff Report -/

/-- Modelled from the spec: per-field mismatches carried by the Diff
Report, each with both the expected and the actual value (a `none` side
of a token mismatch records a difference in span count). -/
inductive Mismatch where
  | tokenMismatch (index : Nat)
      (expected actual : Option (Nat × Nat × String))
  | missingDiagnostic (d : String × String × String)
  | unexpectedDiagnostic (d : String × String × String)
  | checkpointMismatch (checkpoint var : String)
      (expected : String) (actual : Option String)
  deriving DecidableEq, Repr

/-- Modelled from the spec: per-entry result status. -/
inductive EntryStatus where
  | pass
  | fail
  | error (msg : String)
  deriving DecidableEq, BEq, Repr

/-- Modelled from the spec: the per-entry record of a Diff Report. -/
structure EntryResult where
  id : String
  status : EntryStatus
  mismatches : List Mismatch
  deriving DecidableEq, Repr

/-- Modelled from the spec: the structured result of one validation
run, one record per corpus entry, in registry insertion order. -/
structure DiffReport where
  results : List EntryResult
  deriving DecidableEq, Repr

/-- Overall status of a run: `pass` exactly when every entry passed. -/
def DiffReport.overall (r : DiffReport) : String :=
  if r.results.all (fun er => er.status == .pass) then "pass" else "fail"

/-! ## Validation Engine -/

/-- Insert a span into a list sorted by start offset. -/
def insertSpan (s : Nat × Nat × String) :
    List (Nat × Nat × String) → List (Nat × Nat × String)
  | [] => [s]
  | t :: ts => if s.1 ≤ t.1 then s :: t :: ts else t :: insertSpan s ts

/-- Sort actual spans by start offset before positional comparison. -/
def sortSpans : List (Nat × Nat × String) → List (Nat × Nat × String)
  | [] => []
  | s :: ss => insertSpan s (sortSpans ss)

/-- Modelled from the spec: positional token-span comparison after
sorting the actual spans by start offset; any difference in start, end
or category, and any difference in span count, is a token mismatch at
that index with both values. -/
def compareTokenSpans (expected actual : List (Nat × Nat × String)) :
    List Mismatch :=
  let sorted := sortSpans actual
  (List.range (max expected.length sorted.length)).filterMap fun i =>
    match expected[i]?, sorted[i]? with
    | some e, some a =>
      if e = a then none else some (.tokenMismatch i (some e) (some a))
    | some e, none => some (.tokenMismatch i (some e) none)
    | none, some a => some (.tokenMismatch i none (some a))
    | none, none => none

/-- Modelled from the spec: diagnostics are compared as sets; expected
ones missing from actual are `missing-diagnostic`, actual ones not
expected are `unexpected-diagnostic`. -/
def compareDiagnostics
    (expected actual : List (String × String × String)) : List Mismatch :=
  (expected.filter (fun d => !(actual.contains d))).map
      (fun d => .missingDiagnostic d) ++
    (actual.filter (fun d => !(expected.contains d))).map
      (fun d => .unexpectedDiagnostic d)

/-- First binding of variable `v` in a scope report. -/
def lookupVar (v : String) : List (String × String) → Option String
  | [] => none
  | (n, val) :: rest => if n == v then some val else lookupVar v rest

/-- Modelled from the spec: each expected variable must be present in
the actual bindings with an equal value representation, else a
`checkpoint-mismatch`; extra actual bindings are ignored. -/
def compareBindings (cp : String) (expected actual : List (String × String)) :
    List Mismatch :=
  expected.filterMap fun b =>
    match lookupVar b.1 actual with
    | some aval =>
      if aval == b.2 then none
      else some (.checkpointMismatch cp b.1 b.2 (some aval))
    | none => some (.checkpointMismatch cp b.1 b.2 none)

/-- Modelled from the spec: for each checkpoint in `checkpoint_state`
the adapter is asked to run to that checkpoint; the first adapter fault
aborts this entry's evaluation. -/
def checkCheckpoints (a : AnalyzerAdapter) (f : Fixture) :
    List (String × List (String × String)) →
      Except AdapterFault (List Mismatch)
  | [] => .ok []
  | (cp, exp) :: rest =>
    match a.run_to_checkpoint f.source cp with
    | .error fault => .error fault
    | .ok actual =>
      match checkCheckpoints a f rest with
      | .error fault => .error fault
      | .ok ms => .ok (compareBindings cp exp actual ++ ms)

/-- Token-span mismatches of one entry, skipped (no mismatch, no
adapter call) when the `token_spans` expectation field is absent. -/
def tokenMismatches (a : AnalyzerAdapter) (f : Fixture)
    (e : ExpectationSet) : Except AdapterFault (List Mismatch) :=
  match e.token_spans with
  | none => .ok []
  | some exp => (a.tokenize f.source).map (fun sp => compareTokenSpans exp sp)

/-- Diagnostic mismatches of one entry, skipped when the `diagnostics`
expectation field is absent. -/
def diagnosticMismatches (a : AnalyzerAdapter) (f : Fixture)
    (e : ExpectationSet) : Except AdapterFault (List Mismatch) :=
  match e.diagnostics with
  | none => .ok []
  | some exp => (a.lint f.source).map (fun ds => compareDiagnostics exp ds)

/-- Modelled from the spec: gather every mismatch for one entry,
skipping an adapter operation when the corresponding expectation field
is absent, and propagating the first adapter fault. -/
def checkEntry (a : AnalyzerAdapter) (f : Fixture) (e : ExpectationSet) :
    Except AdapterFault (List Mismatch) :=
  match tokenMismatches a f e with
  | .error fault => .error fault
  | .ok tm =>
    match diagnosticMismatches a f e with
    | .error fault => .error fault
    | .ok dm =>
      match checkCheckpoints a f e.checkpoint_state with
      | .error fault => .error fault
      | .ok cm => .ok (tm ++ dm ++ cm)

/-- Modelled from the spec: one entry's result — an adapter fault is
recorded as status `error` with the fault's message, otherwise the
entry passes exactly when no mismatch was found. -/
def evaluateEntry (a : AnalyzerAdapter) (f : Fixture) (e : ExpectationSet) :
    EntryResult :=
  match checkEntry a f e with
  | .error fault =>
    { id := f.id, status := .error fault.message, mismatches := [] }
  | .ok ms =>
    { id := f.id
      status := if ms.isEmpty then .pass else .fail
      mismatches := ms }

/-- Modelled from the spec: `run(registry, analyzer)` evaluates every
registry entry in insertion order and collects the per-entry results. -/
def ValidationEngine.run (reg : CorpusRegistry) (a : AnalyzerAdapter) :
    DiffReport :=
  { results := reg.entriesList.map (fun fe => evaluateEntry a fe.1 fe.2) }

/-- Modelled from the spec: parallel evaluation as a performance
option — `order` is the completion order of the worker pool; the
completed per-entry results are recombined by `id`, not by completion
order. -/
def ValidationEngine.runParallel (reg : CorpusRegistry)
    (a : AnalyzerAdapter) (order : List Nat) : DiffReport :=
  let completed := order.filterMap fun i =>
    (reg.entriesList[i]?).map (fun fe => evaluateEntry a fe.1 fe.2)
  { results := reg.entriesList.filterMap fun fe =>
      completed.find? (fun res => res.id == fe.1.id) }

/-! ## Sample scripts under test-project -/

/-- `calculate(a, b)` from `debug_test.py`: binds `result = a + b` and
returns `result`. -/
def calculate (a b : Int) : Int :=
  let result := a + b
  result

/-- `numbers = [1, 2, 3, 4, 5]` in `main()` of `debug_test.py`. -/
def debug_test_numbers : List Int := [1, 2, 3, 4, 5]

/-- `total`, accumulated by `for num in numbers: total += num` starting
from `total = 0` in `main()` of `debug_test.py`. -/
def debug_test_total : Int :=
  debug_test_numbers.foldl (fun total num => total + num) 0

/-- `x = 10` in `main()` of `debug_test.py`. -/
def debug_test_x : Int := 10

/-- `y = 20` in `main()` of `debug_test.py`. -/
def debug_test_y : Int := 20

/-- `result = calculate(x, y)` in `main()` of `debug_test.py`. -/
def debug_test_result : Int := calculate debug_test_x debug_test_y

/-- Variable state of the top-level `while True` loop in `main.py`,
together with the number of loop iterations that have printed. -/
structure LoopState where
  x : Int
  y : Int
  result : Int
  printed : Nat
  deriving DecidableEq, Repr

/-- The loop guard of `while True:` in `main.py` — the literal `True`,
whatever the state. -/
def whileTrueCond (_ : LoopState) : Bool := true

/-- One iteration of the loop body in `main.py`: `x = 10; y = 20;
result = x + y`, then one print (and a one-second sleep).  The body
contains no break or return and leaves nothing the guard reads. -/
def loopBody (s : LoopState) : LoopState :=
  let x : Int := 10
  let y : Int := 20
  let result := x + y
  { x := x, y := y, result := result, printed := s.printed + 1 }

/-- State after `n` completed iterations of the `main.py` loop. -/
def loopIter : Nat → LoopState → LoopState
  | 0, s => s
  | n + 1, s => loopIter n (loopBody s)

/-- State when the `while True` loop is first entered, after the
prelude of `main.py` has run (`x = 10`, `y = 20`, `result = 30`). -/
def mainLoopInit : LoopState :=
  { x := 10, y := 20, result := 30, printed := 0 }

/-! ## Concrete fixtures, expectations and adapters used as instances -/

def fixA : Fixture :=
  { id := "a", source := "x = 1", tags := [], checkpoints := [] }

def fixB : Fixture :=
  { id := "b", source := "y = 2", tags := [], checkpoints := [] }

def fixA2 : Fixture :=
  { id := "a", source := "z = 3", tags := [], checkpoints := [] }

def expEmpty : ExpectationSet :=
  { token_spans := none, diagnostics := none, checkpoint_state := [] }

def regDup : CorpusRegistry :=
  { entriesList := [(fixA, expEmpty)], frozen := false }

/-- A fixture exercising token spans only. -/
def fixTok : Fixture :=
  { id := "tok", source := "while ident", tags := ["tokens"], checkpoints := [] }

def expTok : ExpectationSet :=
  { token_spans := some [(0, 5, "keyword"), (6, 10, "identifier")]
    diagnostics := none
    checkpoint_state := [] }

/-- An adapter returning exactly the expected token spans. -/
def adapterExact : AnalyzerAdapter :=
  { tokenize := fun _ => .ok [(0, 5, "keyword"), (6, 10, "identifier")]
    lint := fun _ => .ok []
    run_to_checkpoint := fun _ _ => .ok [] }

/-- An adapter whose second span's end offset is off by one. -/
def adapterOffByOne : AnalyzerAdapter :=
  { tokenize := fun _ => .ok [(0, 5, "keyword"), (6, 11, "identifier")]
    lint := fun _ => .ok []
    run_to_checkpoint := fun _ _ => .ok [] }

/-- A fixture with one named checkpoint `after-sum`. -/
def fixCp : Fixture :=
  { id := "cp", source := "total = 30", tags := ["breakpoint-scenario"]
    checkpoints := [{ name := "after-sum", line := 17, column := none }] }

def expCp : ExpectationSet :=
  { token_spans := none
    diagnostics := none
    checkpoint_state := [("after-sum", [("result", "30")])] }

/-- An adapter reporting the expected binding plus an incidental
temporary. -/
def adapterCp : AnalyzerAdapter :=
  { tokenize := fun _ => .ok []
    lint := fun _ => .ok []
    run_to_checkpoint := fun _ _ => .ok [("result", "30"), ("temp", "0")] }

/-- A fixture whose expectations require reaching checkpoint `cp`. -/
def fixBad : Fixture :=
  { id := "bad", source := "loop()", tags := []
    checkpoints := [{ name := "cp", line := 1, column := none }] }

def expBad : ExpectationSet :=
  { token_spans := none
    diagnostics := none
    checkpoint_state := [("cp", [("v", "1")])] }

/-- An adapter whose `run_to_checkpoint` always raises
`CheckpointUnreachableError`. -/
def adapterFaulty : AnalyzerAdapter :=
  { tokenize := fun _ => .ok []
    lint := fun _ => .ok []
    run_to_checkpoint := fun _ _ =>
      .error (.CheckpointUnreachableError "checkpoint never reached") }

def regFault : CorpusRegistry :=
  { entriesList := [(fixBad, expBad), (fixA, expEmpty)], frozen := true }

/-- An adapter that succeeds with empty analyses on every operation. -/
def adapterTrivial : AnalyzerAdapter :=
  { tokenize := fun _ => .ok []
    lint := fun _ => .ok []
    run_to_checkpoint := fun _ _ => .ok [] }

def regPar : CorpusRegistry :=
  { entriesList := [(fixA, expEmpty), (fixB, expEmpty)], frozen := true }

/-! ## Registry theorems -/

theorem register_ok_entriesList {r r' : CorpusRegistry} {f : Fixture}
    {e : ExpectationSet} (h : r.register f e = .ok r') :
    r'.entriesList = r.entriesList ++ [(f, e)] ∧ r'.frozen = r.frozen := by
  unfold CorpusRegistry.register at h
  split at h
  · exact absurd h (by simp)
  split at h
  · exact absurd h (by simp)
  split at h
  · exact absurd h (by simp)
  cases h
  exact ⟨rfl, rfl⟩

/-- Claim C2: after every sequence of successful `register` calls the
registry's `entries()` are exactly the previous entries followed by the
newly registered (Fixture, Expectation Set) pairs in registration
order; `entries` is a pure function of the registry, so repeated or
restarted iterations always yield this same order. -/
theorem entries_in_registration_order :
    ∀ (ps : List (Fixture × ExpectationSet)) (r r' : CorpusRegistry),
      r.registerAll ps = .ok r' → r'.entries = r.entries ++ ps := by
  intro ps
  induction ps with
  | nil =>
    intro r r' h
    cases h
    simp [CorpusRegistry.entries]
  | cons p rest ih =>
    intro r r' h
    obtain ⟨f, e⟩ := p
    unfold CorpusRegistry.registerAll at h
    split at h
    · exact absurd h (by simp)
    case _ r'' hreg =>
      have h1 := register_ok_entriesList hreg
      have h2 := ih r'' r' h
      simp [CorpusRegistry.entries] at h1 h2 ⊢
      rw [h2, h1.1, List.append_assoc]
      rfl

theorem entries_in_registration_order_witness :
    CorpusRegistry.entries
        { entriesList := [(fixA, expEmpty), (fixB, expEmpty)], frozen := false } =
      CorpusRegistry.entries emptyRegistry ++ [(fixA, expEmpty), (fixB, expEmpty)] :=
  entries_in_registration_order [(fixA, expEmpty), (fixB, expEmpty)]
    emptyRegistry _ rfl

/-- Claim C3: registering a fixture whose id is already present in a
(not yet frozen) registry fails with `DuplicateIdError`, and the failed
call leaves the registry — entry count and contents — unchanged. -/
theorem register_duplicate_id :
    ∀ (r : CorpusRegistry) (f g : Fixture) (e e' : ExpectationSet),
      r.frozen = false → (f, e) ∈ r.entriesList → g.id = f.id →
      r.register g e' = .error .DuplicateIdError ∧
        r.attemptRegister g e' = r := by
  intro r f g e e' hfrozen hmem hid
  have hany : r.entriesList.any (fun p => p.1.id == g.id) = true :=
    List.any_eq_true.mpr ⟨(f, e), hmem, by simp [hid]⟩
  have hreg : r.register g e' = .error .DuplicateIdError := by
    unfold CorpusRegistry.register
    simp [hfrozen, hany]
  exact ⟨hreg, by simp [CorpusRegistry.attemptRegister, hreg]⟩

theorem register_duplicate_id_witness :
    regDup.register fixA2 expEmpty = .error .DuplicateIdError ∧
      regDup.attemptRegister fixA2 expEmpty = regDup :=
  register_duplicate_id regDup fixA fixA2 expEmpty expEmpty rfl
    (by simp [regDup]) rfl

/-- On a frozen registry already containing id `a`, registering a
second fixture with id `a` fails with `RegistryFrozenError`, not
`DuplicateIdError`: read-only status takes precedence over the
duplicate check, so the duplicate-id guarantee holds only before
`freeze()`. -/
theorem register_duplicate_id_frozen_counterexample :
    regDup.freeze.register fixA2 expEmpty ≠
        Except.error RegistryError.DuplicateIdError ∧
      regDup.freeze.register fixA2 expEmpty =
        Except.error RegistryError.RegistryFrozenError := by
  have hfr : regDup.freeze.register fixA2 expEmpty =
      Except.error RegistryError.RegistryFrozenError := rfl
  refine ⟨?_, hfr⟩
  rw [hfr]
  intro h
  simp at h

/-- Claim C7: once `freeze()` has been called, every subsequent
`register` call fails with `RegistryFrozenError`, the failed call
leaves the frozen registry unchanged, and freezing itself leaves the
entries untouched — the registry is read-only from `freeze` onward. -/
theorem freeze_read_only :
    ∀ (r : CorpusRegistry) (f : Fixture) (e : ExpectationSet),
      r.freeze.register f e = .error .RegistryFrozenError ∧
        r.freeze.attemptRegister f e = r.freeze ∧
        r.freeze.entries = r.entries := by
  intro r f e
  have hreg : r.freeze.register f e = .error .RegistryFrozenError := by
    unfold CorpusRegistry.register CorpusRegistry.freeze
    simp
  exact ⟨hreg, by simp [CorpusRegistry.attemptRegister, hreg], rfl⟩

/-! ## Validation Engine theorems -/

/-- Claim C8: running the engine over an empty registry yields an empty
Diff Report whose overall status is `pass`, whatever the adapter. -/
theorem run_empty_registry :
    ∀ a : AnalyzerAdapter,
      ValidationEngine.run emptyRegistry a = { results := [] } ∧
        (ValidationEngine.run emptyRegistry a).overall = "pass" :=
  fun _ => ⟨rfl, rfl⟩

/-! ## Sample script theorems -/

/-- Claim C9: `calculate(a, b)` in `debug_test.py` returns `a + b` for
all arguments; in `main()` the accumulated `total` over
`[1, 2, 3, 4, 5]` equals 15 and `result = calculate(x, y)` with
`x = 10`, `y = 20` equals 30. -/
theorem calculate_and_main_values :
    (∀ a b : Int, calculate a b = a + b) ∧
      debug_test_total = 15 ∧ debug_test_result = 30 :=
  ⟨fun _ _ => rfl, by decide, by decide⟩

theorem loopIter_printed :
    ∀ (n : Nat) (s : LoopState), (loopIter n s).printed = s.printed + n := by
  intro n
  induction n with
  | zero => intro s; simp [loopIter]
  | succ k ih =>
    intro s
    have h := ih (loopBody s)
    simp [loopIter, loopBody] at h ⊢
    rw [h]
    omega

/-- Claim C10: the `while True` loop at the end of `main.py` never
terminates normally — after any number `n` of completed iterations the
guard still evaluates to `True`, so another iteration executes, and
each iteration performs exactly one more print. -/
theorem main_loop_never_terminates :
    ∀ n : Nat,
      whileTrueCond (loopIter n mainLoopInit) = true ∧
        (loopIter n mainLoopInit).printed = n ∧
        ¬ ∃ m : Nat, whileTrueCond (loopIter m mainLoopInit) = false := by
  intro n
  refine ⟨rfl, ?_, ?_⟩
  · have h := loopIter_printed n mainLoopInit
    simpa [mainLoopInit] using h
  · rintro ⟨m, hm⟩
    simp [whileTrueCond] at hm

/-! ## Token-span and checkpoint comparison theorems -/

/-- Claim C5: with expected spans `[(0,5,keyword), (6,10,identifier)]`,
an adapter returning the identical sequence makes the entry pass with
zero mismatches, while an adapter whose second end offset is 11 instead
of 10 makes it fail with exactly one token mismatch at index 1 carrying
both values. -/
theorem token_span_comparison :
    evaluateEntry adapterExact fixTok expTok =
        { id := "tok", status := .pass, mismatches := [] } ∧
      evaluateEntry adapterOffByOne fixTok expTok =
        { id := "tok", status := .fail
          mismatches := [.tokenMismatch 1 (some (6, 10, "identifier"))
            (some (6, 11, "identifier"))] } := by
  constructor <;> rfl

/-- Claim C6: whenever every expected variable of every checkpoint is
present in the adapter's reported bindings with an equal value
representation, the checkpoint comparison yields no mismatch at all —
bindings present in the actual result but not expected are ignored. -/
theorem checkpoint_subset_passes :
    ∀ (a : AnalyzerAdapter) (f : Fixture)
      (cps : List (String × List (String × String))),
      (∀ cp exp, (cp, exp) ∈ cps →
        ∃ actual, a.run_to_checkpoint f.source cp = .ok actual ∧
          ∀ b ∈ exp, lookupVar b.1 actual = some b.2) →
      checkCheckpoints a f cps = .ok [] := by
  intro a f cps
  induction cps with
  | nil => intro _; rfl
  | cons p rest ih =>
    intro h
    obtain ⟨cp, exp⟩ := p
    obtain ⟨actual, hrun, hbind⟩ := h cp exp (by simp)
    have hcmp : compareBindings cp exp actual = [] := by
      unfold compareBindings
      rw [List.filterMap_eq_nil_iff]
      intro b hb
      rw [hbind b hb]
      simp
    have hrest : checkCheckpoints a f rest = .ok [] :=
      ih (fun cp' exp' hmem => h cp' exp' (by simp [hmem]))
    unfold checkCheckpoints
    rw [hrun, hrest]
    simp [hcmp]

theorem checkpoint_subset_passes_witness :
    checkCheckpoints adapterCp fixCp expCp.checkpoint_state = .ok [] ∧
      (evaluateEntry adapterCp fixCp expCp).status = .pass := by
  constructor
  · apply checkpoint_subset_passes adapterCp fixCp expCp.checkpoint_state
    intro cp exp hmem
    simp [expCp] at hmem
    obtain ⟨h1, h2⟩ := hmem
    subst h1
    subst h2
    exact ⟨[("result", "30"), ("temp", "0")], rfl, by decide⟩
  · rfl

/-! ## Fault-isolation theorems -/

/-- Claim C1: the engine's run produces one result per registry entry —
no entry's adapter fault aborts the run — and an entry on which the
adapter raises a fault is recorded with status `error` carrying the
fault's message. -/
theorem run_isolates_faults :
    ∀ (reg : CorpusRegistry) (a : AnalyzerAdapter),
      (ValidationEngine.run reg a).results.length =
          reg.entriesList.length ∧
        ∀ (i : Nat) (fe : Fixture × ExpectationSet) (fault : AdapterFault),
          reg.entriesList[i]? = some fe →
          checkEntry a fe.1 fe.2 = .error fault →
          (ValidationEngine.run reg a).results[i]? =
            some { id := fe.1.id, status := .error fault.message
                   mismatches := [] } := by
  intro reg a
  constructor
  · simp [ValidationEngine.run]
  · intro i fe fault hget hfault
    simp [ValidationEngine.run, List.getElem?_map, hget, evaluateEntry, hfault]

theorem run_isolates_faults_witness :
    (ValidationEngine.run regFault adapterFaulty).results[0]? =
        some { id := "bad", status := .error "checkpoint never reached"
               mismatches := [] } ∧
      (ValidationEngine.run regFault adapterFaulty).results.length = 2 ∧
      (ValidationEngine.run regFault adapterFaulty).results[1]? =
        some { id := "a", status := .pass, mismatches := [] } :=
  ⟨(run_isolates_faults regFault adapterFaulty).2 0 (fixBad, expBad)
      (.CheckpointUnreachableError "checkpoint never reached") rfl rfl,
    by rw [(run_isolates_faults regFault adapterFaulty).1]; rfl,
    rfl⟩

/-! ## Parallel-evaluation theorems -/

theorem evaluateEntry_id (a : AnalyzerAdapter) (f : Fixture)
    (e : ExpectationSet) : (evaluateEntry a f e).id = f.id := by
  unfold evaluateEntry
  split <;> rfl

theorem filterMap_range_getElem {α β : Type} (l : List α) (h : α → β) :
    (List.range l.length).filterMap (fun i => (l[i]?).map h) = l.map h := by
  induction l with
  | nil => rfl
  | cons x xs ih =>
    rw [List.length_cons, List.range_succ_eq_map, List.filterMap_cons]
    have hfun : ((fun i => (((x :: xs)[i]?).map h)) ∘ Nat.succ) =
        fun i => ((xs[i]?).map h) := by
      funext i
      simp [Function.comp, List.getElem?_cons_succ]
    simp only [List.getElem?_cons_zero, List.filterMap_map, hfun, ih,
      List.map_cons]
    rfl

theorem find_first_unique {α : Type} {p : α → Bool} {l : List α} {t : α}
    (hall : ∀ x ∈ l, p x = true → x = t) (hex : ∃ x ∈ l, p x = true) :
    l.find? p = some t := by
  induction l with
  | nil => simp at hex
  | cons y ys ih =>
    by_cases hy : p y = true
    · rw [List.find?_cons_of_pos _ hy, hall y (by simp) hy]
    · rw [List.find?_cons_of_neg _ hy]
      apply ih
      · intro x hx hpx
        exact hall x (by simp [hx]) hpx
      · obtain ⟨x, hx, hpx⟩ := hex
        rcases List.mem_cons.mp hx with h | h
        · subst h; exact absurd hpx hy
        · exact ⟨x, h, hpx⟩

theorem filterMap_eq_map_of_some {α β : Type} {g : α → Option β}
    {h : α → β} :
    ∀ {l : List α}, (∀ x ∈ l, g x = some (h x)) →
      l.filterMap g = l.map h := by
  intro l
  induction l with
  | nil => intro _; rfl
  | cons x xs ih =>
    intro H
    simp [List.filterMap_cons, H x (by simp),
      ih (fun y hy => H y (by simp [hy]))]

/-- Claim C4: evaluating the entries of a registry with distinct ids in
any worker completion order and recombining the per-entry results by
`id` yields exactly the Diff Report of sequential evaluation in
insertion order. -/
theorem runParallel_eq_run :
    ∀ (reg : CorpusRegistry) (a : AnalyzerAdapter) (order : List Nat),
      order.Perm (List.range reg.entriesList.length) →
      (reg.entriesList.map (fun fe => fe.1.id)).Nodup →
      ValidationEngine.runParallel reg a order =
        ValidationEngine.run reg a := by
  intro reg a order hperm hnodup
  have hcompleted :
      (order.filterMap fun i =>
          (reg.entriesList[i]?).map (fun fe => evaluateEntry a fe.1 fe.2)).Perm
        (reg.entriesList.map (fun fe => evaluateEntry a fe.1 fe.2)) := by
    have h1 := hperm.filterMap
      (fun i => (reg.entriesList[i]?).map (fun fe => evaluateEntry a fe.1 fe.2))
    rw [filterMap_range_getElem] at h1
    exact h1
  have hfind : ∀ fe ∈ reg.entriesList,
      (order.filterMap fun i =>
          (reg.entriesList[i]?).map
            (fun fe => evaluateEntry a fe.1 fe.2)).find?
          (fun res => res.id == fe.1.id) =
        some (evaluateEntry a fe.1 fe.2) := by
    intro fe hfe
    apply find_first_unique
    · intro x hx hpx
      obtain ⟨fe', hfe', rfl⟩ := List.mem_map.mp (hcompleted.mem_iff.mp hx)
      have hid : fe'.1.id = fe.1.id := by
        simpa [evaluateEntry_id] using hpx
      rw [List.inj_on_of_nodup_map hnodup hfe' hfe hid]
    · exact ⟨evaluateEntry a fe.1 fe.2,
        hcompleted.mem_iff.mpr (List.mem_map_of_mem _ hfe),
        by simp [evaluateEntry_id]⟩
  simp only [ValidationEngine.runParallel, ValidationEngine.run]
  congr 1
  exact filterMap_eq_map_of_some hfind

theorem runParallel_eq_run_witness :
    ValidationEngine.runParallel regPar adapterTrivial [1, 0] =
      ValidationEngine.run regPar adapterTrivial :=
  runParallel_eq_run regPar adapterTrivial [1, 0] (by decide) (by decide)

theorem register_ok_fresh_id {r r' : CorpusRegistry} {f : Fixture}
    {e : ExpectationSet} (h : r.register f e = .ok r') :
    r.entriesList.any (fun p => p.1.id == f.id) = false := by
  unfold CorpusRegistry.register at h
  split at h
  · exact absurd h (by simp)
  split at h
  case isTrue => exact absurd h (by simp)
  case isFalse hany => simpa using hany

/-- Every registry built by successful registrations starting from the
empty registry has pairwise-distinct fixture ids, justifying the
distinct-ids hypothesis of `runParallel_eq_run`. -/
theorem registerAll_nodup_ids :
    ∀ (ps : List (Fixture × ExpectationSet)) (r r' : CorpusRegistry),
      (r.entriesList.map (fun fe => fe.1.id)).Nodup →
      r.registerAll ps = .ok r' →
      (r'.entriesList.map (fun fe => fe.1.id)).Nodup := by
  intro ps
  induction ps with
  | nil =>
    intro r r' hr h
    cases h
    exact hr
  | cons p rest ih =>
    intro r r' hr h
    obtain ⟨f, e⟩ := p
    unfold CorpusRegistry.registerAll at h
    split at h
    · exact absurd h (by simp)
    case _ r'' hreg =>
      apply ih r'' r' _ h
      have h1 := (register_ok_entriesList hreg).1
      have h2 := register_ok_fresh_id hreg
      rw [h1]
      simp only [List.map_append, List.map_cons, List.map_nil]
      rw [List.nodup_append]
      refine ⟨hr, by simp, ?_⟩
      intro x hx hx'
      simp at hx'
      subst hx'
      obtain ⟨fe, hfe, hfeq⟩ := List.mem_map.mp hx
      have := List.any_eq_false.mp h2 fe hfe
      simp [hfeq] at this
